import Mathlib

/-!
Verification development for the `gca-backend` repository's
watttime/gca-server scripts.

The Python scripts are shallowly embedded in Lean:
* Python floats are modelled as rationals (`ℚ`).
* Python dicts (insertion ordered) become association lists; the nested
  `defaultdict(lambda: defaultdict(lambda: defaultdict(list)))` holding MOER
  readings becomes the `MoerData` nested association list with an
  append-or-create update and a lookup defaulting to `[]`.
* Timestamp strings keep Python slicing/splitting semantics on the
  well-formed inputs the scripts consume.
* Effectful code (HTTP fetches, file writes, sleeps, retries) is embedded as
  a pure function from an environment (does the cache file exist; does
  attempt `i` succeed) to the list of side effects it performs, in order.
-/

namespace GcaBackend

/-- Python `s[:n]` (clamping slice). -/
def pyTake (s : String) (n : ℕ) : String :=
  String.mk (s.toList.take n)

/-- Python `s[a:b]` for `0 ≤ a ≤ b` (clamping slice). -/
def pySlice (s : String) (a b : ℕ) : String :=
  String.mk ((s.toList.drop a).take (b - a))

/-- Python `s[-2:]`: the last two characters (the whole string if shorter). -/
def pyLast2 (s : String) : String :=
  String.mk (s.toList.drop (s.toList.length - 2))

/-- The part of `s` before the first occurrence of `c`
    (all of `s` when `c` does not occur). -/
def pyBefore (c : Char) (s : String) : String :=
  String.mk (s.toList.takeWhile (fun x => x ≠ c))

/-- The part of `s` after the first occurrence of `c`
    (empty when `c` does not occur).  Together with `pyBefore` this is
    Python's `s.split(c, 1)` on strings that contain `c`. -/
def pyAfter (c : Char) (s : String) : String :=
  String.mk ((s.toList.dropWhile (fun x => x ≠ c)).drop 1)

/-!
## The nested MOER dictionary

`data = defaultdict(lambda: defaultdict(lambda: defaultdict(list)))` indexed
as `data[year][day][hour] : list of float`.  Modelled as nested association
lists preserving insertion order.
-/

/-- Innermost level: hour keyed lists of MOER readings. -/
abbrev HourMap := List (String × List ℚ)

/-- Middle level: day ("MM-DD") keyed. -/
abbrev DayMap := List (String × HourMap)

/-- Outer level: year keyed. -/
abbrev MoerData := List (String × DayMap)

/-- Append `m` to the list at key `h`, creating the key (at the end,
    Python dict insertion order) when absent. -/
def appendHour (hm : HourMap) (h : String) (m : ℚ) : HourMap :=
  match hm with
  | [] => [(h, [m])]
  | (k, v) :: rest =>
      if k = h then (k, v ++ [m]) :: rest
      else (k, v) :: appendHour rest h m

/-- Append at `data[d][h]`, creating keys as needed. -/
def appendDay (dm : DayMap) (d h : String) (m : ℚ) : DayMap :=
  match dm with
  | [] => [(d, appendHour [] h m)]
  | (k, v) :: rest =>
      if k = d then (k, appendHour v h m) :: rest
      else (k, v) :: appendDay rest d h m

/-- Python `data[y][d][h].append(m)` on the nested defaultdict. -/
def append3 (md : MoerData) (y d h : String) (m : ℚ) : MoerData :=
  match md with
  | [] => [(y, appendDay [] d h m)]
  | (k, v) :: rest =>
      if k = y then (k, appendDay v d h m) :: rest
      else (k, v) :: append3 rest y d h m

/-- Association-list lookup with the defaultdict default. -/
def lookupD {α : Type} (l : List (String × α)) (k : String) (dflt : α) : α :=
  match l with
  | [] => dflt
  | (k', v) :: rest => if k' = k then v else lookupD rest k dflt

/-- Reading `data[y][d][h]` as the credit computations do: a missing chain of
    keys yields the defaultdict's default `[]`. -/
def lookup3 (md : MoerData) (y d h : String) : List ℚ :=
  lookupD (lookupD (lookupD md y []) d []) h []

/-!
## `load_csv_files` (carbon_credits_per_kw.py)

A CSV file on disk is modelled as its name together with its rows, each row
already parsed to `(row[0], float(row[1]))`; the header row (skipped by
`next(reader)`) is the first element.  The `year/day/hour` key of a row's
timestamp follows the Python code: `year, rest = timestamp.split('-', 1)`,
`day, time = rest.split('T')`, `hour = time.split(':')[0]`.
-/

/-- A CSV file: its filename and its rows (header first). -/
structure CsvFile where
  name : String
  rows : List (String × ℚ)

/-- The `(year, day, hour)` bucket key of a timestamp such as
    `2022-01-02T03:45:00+00:00`. -/
def moerKey (timestamp : String) : String × String × String :=
  let year := pyBefore '-' timestamp
  let rest := pyAfter '-' timestamp
  let day := pyBefore 'T' rest
  let time := pyAfter 'T' rest
  let hour := pyBefore ':' time
  (year, day, hour)

/-- Append every data row of one file into the nested dictionary. -/
def loadRows (md : MoerData) (rows : List (String × ℚ)) : MoerData :=
  match rows with
  | [] => md
  | (ts, m) :: rest =>
      let k := moerKey ts
      loadRows (append3 md k.1 k.2.1 k.2.2 m) rest

/-- Python `load_csv_files(ba)`: over the files of folder `data/{ba}`, take those
    whose name starts with `"{ba}_2022"` and ends with `".csv"`, skip each
    one's header row, and append every `(timestamp, moer)` row at the
    timestamp's `[year][day][hour]` bucket. -/
def load_csv_files (ba : String) (folder : List CsvFile) : MoerData :=
  folder.foldl
    (fun md f =>
      if f.name.startsWith (ba ++ "_2022") && f.name.endsWith ".csv" then
        loadRows md (f.rows.drop 1)
      else md)
    []

/-- The per-BA inner loop of `load_all_ba_history` (solar_value_map.py):
    identical to `load_csv_files` except that the filename filter is only
    `endswith('.csv')`. -/
def load_ba_folder (folder : List CsvFile) : MoerData :=
  folder.foldl
    (fun md f => if f.name.endsWith ".csv" then loadRows md (f.rows.drop 1) else md)
    []

/-!
## `calculate_carbon_credits` (carbon_credits_per_kw.py)

`nasa_data['properties']['parameter']['ALLSKY_SFC_SW_DWN']` is a dict from
hourly timestamps (`"YYYYMMDDHH"`) to an irradiance reading or `None`; it is
modelled directly as the association list of its items (the enclosing
constant JSON layers carry no information).  The function's local variables
at the end of the loop, and the derived quantities, are returned in a
structure so that each claim can speak about them.
-/

/-- The NASA hourly series: dict items in iteration order. -/
abbrev NasaData := List (String × Option ℚ)

/-- Loop state of `calculate_carbon_credits`. -/
structure CreditAcc where
  total_kwh : ℚ
  total_moer : ℚ
  total_hours : ℕ
deriving Repr, DecidableEq

/-- One iteration of the loop body of `calculate_carbon_credits` (and of the
    identical inline loop in solar_value_map.py) on item
    `(day_data, sun_intensity)`. -/
def creditStep (moer_data : MoerData) (acc : CreditAcc) (item : String × Option ℚ) :
    CreditAcc :=
  match item.2 with
  | none => acc
  | some sun_intensity =>
      let day_data := item.1
      let hour_f := pyLast2 day_data
      let day_f := pySlice day_data 4 6 ++ "-" ++ pySlice day_data 6 8
      let year_f := pyTake day_data 4
      let moer_values := lookup3 moer_data year_f day_f hour_f
      if moer_values = [] then acc
      else
        let average_moer := moer_values.sum / (moer_values.length : ℚ)
        let average_moer_metric_tons := average_moer / (2204.62 : ℚ)
        let sun_intensity_kw := sun_intensity / 1000
        { total_kwh := acc.total_kwh + sun_intensity_kw,
          total_moer := acc.total_moer + average_moer_metric_tons * sun_intensity_kw,
          total_hours := acc.total_hours + 1 }

/-- Results of `calculate_carbon_credits`. -/
structure CreditResult where
  total_kwh : ℚ
  total_moer : ℚ
  total_hours : ℕ
  average_moer_per_mwh : ℚ
  avg_hour : ℚ
  total_carbon_credits : ℚ
deriving Repr, DecidableEq

/-- Python `calculate_carbon_credits(nasa_data, moer_data)`.  Rational division is
    total (`x / 0 = 0`), so the two final divisions are always defined here;
    whether their denominators vanish is a separate claim. -/
def calculate_carbon_credits (nasa_data : NasaData) (moer_data : MoerData) :
    CreditResult :=
  let acc := nasa_data.foldl (creditStep moer_data) ⟨0, 0, 0⟩
  let average_moer_per_mwh := acc.total_moer / acc.total_kwh
  let avg_hour := acc.total_kwh / (acc.total_hours : ℚ)
  { total_kwh := acc.total_kwh,
    total_moer := acc.total_moer,
    total_hours := acc.total_hours,
    average_moer_per_mwh := average_moer_per_mwh,
    avg_hour := avg_hour,
    total_carbon_credits := average_moer_per_mwh / 1000 * avg_hour * 8766 }

/-!
## The inline per-coordinate computation of solar_value_map.py

Written out separately, line for line from its own source, to state the
duplication claim as an equivalence of two independent definitions.
-/

/-- One iteration of the inline loop of solar_value_map.py (lines 115-144). -/
def solarMapStep (ba_history : MoerData) (acc : CreditAcc) (item : String × Option ℚ) :
    CreditAcc :=
  match item.2 with
  | none => acc
  | some sun_intensity =>
      let day_data := item.1
      let hour_f := pyLast2 day_data
      let day_f := pySlice day_data 4 6 ++ "-" ++ pySlice day_data 6 8
      let year_f := pyTake day_data 4
      let moer_values := lookup3 ba_history year_f day_f hour_f
      if moer_values = [] then acc
      else
        let average_moer := moer_values.sum / (moer_values.length : ℚ)
        let average_moer_metric_tons := average_moer / (2204.62 : ℚ)
        let sun_intensity_kw := sun_intensity / 1000
        { total_kwh := acc.total_kwh + sun_intensity_kw,
          total_moer := acc.total_moer + average_moer_metric_tons * sun_intensity_kw,
          total_hours := acc.total_hours + 1 }

/-- The per-coordinate credit computation inlined in solar_value_map.py:
    the loop over `solar_history['properties']['parameter']['ALLSKY_SFC_SW_DWN']`
    followed by the same three derived quantities. -/
def solarMapCredit (solar_history : NasaData) (ba_history : MoerData) :
    CreditResult :=
  let acc := solar_history.foldl (solarMapStep ba_history) ⟨0, 0, 0⟩
  let average_moer_per_mwh := acc.total_moer / acc.total_kwh
  let avg_hour := acc.total_kwh / (acc.total_hours : ℚ)
  { total_kwh := acc.total_kwh,
    total_moer := acc.total_moer,
    total_hours := acc.total_hours,
    average_moer_per_mwh := average_moer_per_mwh,
    avg_hour := avg_hour,
    total_carbon_credits := average_moer_per_mwh / 1000 * avg_hour * 8766 }

/-!
## `get_ba_by_coords` (solar_value_map.py)

A GeoDataFrame row carries an `abbrev` string and a geometry; the only
geometry operation used is `geometry.contains(point)`, so a geometry is
modelled as its containment predicate on points.
-/

/-- A Shapely point; the constructor takes `(longitude, latitude)`. -/
structure Point where
  x : ℚ
  y : ℚ
deriving Repr, DecidableEq

/-- A row of the BA GeoDataFrame (`abbrev` is a Lean keyword, hence
    `ba_abbrev` for the row's `abbrev` column). -/
structure BaRow where
  ba_abbrev : String
  geometry : Point → Bool

/-- Python `get_ba_by_coords(gdf, latitude, longitude)`: iterate over the rows and
    return the `abbrev` of the first whose geometry contains
    `Point(longitude, latitude)`; `None` if no row does. -/
def get_ba_by_coords (gdf : List BaRow) (latitude longitude : ℚ) : Option String :=
  let point : Point := ⟨longitude, latitude⟩
  match gdf with
  | [] => none
  | row :: rest =>
      if row.geometry point then some row.ba_abbrev
      else get_ba_by_coords rest latitude longitude

/-!
## `calculate_average_sunlight` (combination.py)

Input: the dict `data["properties"]["parameter"]["ALLSKY_SFC_SW_DWN"]` of a
NASA daily-point response, modelled as its items; the function uses only
`.values()`.
-/

/-- Python `calculate_average_sunlight(data)`: mean of the readings that are not
    the `-999.0` sentinel, `0` when there are none. -/
def calculate_average_sunlight (data : List (String × ℚ)) : ℚ :=
  let sunlight_data := data.map Prod.snd
  let filtered_data := sunlight_data.filter (fun x => x ≠ -999)
  if filtered_data = [] then 0
  else filtered_data.sum / (filtered_data.length : ℚ)

/-!
## Timeslot utilities (scripts/gca-server)

A UTC `datetime` is represented by its unix timestamp (the scripts only ever
build one from a timestamp with `datetime.fromtimestamp(t, timezone.utc)`),
and a `date` by its day number `t // 86400` (all timestamps involved are
after the epoch, so Python's floor division agrees with `Nat` division).
-/

def GENESIS_TIME : ℕ := 1700352000

def TIMESLOT_DURATION : ℕ := 5 * 60

def TIMESLOTS_PER_WEEK : ℕ := 2016

/-- The UTC calendar date of a unix timestamp, as a day number. -/
def dateOfTimestamp (t : ℕ) : ℕ := t / 86400

/-- Python `timeslot_to_date(tslot)` (timeslot_to_date.py): the UTC datetime of the
    timeslot's start (as its unix timestamp) and its week number. -/
def timeslot_to_date (tslot : ℕ) : ℕ × ℕ :=
  let t := GENESIS_TIME + TIMESLOT_DURATION * tslot
  let w := tslot / TIMESLOTS_PER_WEEK
  (t, w)

/-- Python `calc_week_info(current_time)` (week_to_timeslot.py): one entry
    `(week_number, week_start_timeslot, week_start_date)` per week from
    genesis through the current week. -/
def calc_week_info (current_time : ℕ) : List (ℕ × ℕ × ℕ) :=
  let elapsed_time := current_time - GENESIS_TIME
  let total_timeslots := elapsed_time / TIMESLOT_DURATION
  (List.range (total_timeslots / TIMESLOTS_PER_WEEK + 1)).map
    (fun week_number =>
      let week_start_timeslot := week_number * TIMESLOTS_PER_WEEK
      let week_start_time := GENESIS_TIME + week_start_timeslot * TIMESLOT_DURATION
      (week_number, week_start_timeslot, dateOfTimestamp week_start_time))

/-!
## `fetch_and_save` (download_sun_data.py) and
## `fetch_and_save_historical_data` (wt_api_hist_download.py)

Embedded as pure functions from their environment to the ordered list of
side effects performed.  For `fetch_and_save` the environment is whether the
cache file `data/nasa/{lat}/{lon}.json` exists and, for each loop iteration
`i`, whether its fetch-and-save attempt succeeds (`fetch_nasa_data` or
`save_to_disk` raising counts as failure).  An attempt always performs the
HTTP fetch; the file write happens only on success.
-/

/-- Side effects of `fetch_and_save`. -/
inductive SunEffect where
  | fetch (attempt : ℕ)
  | write (attempt : ℕ)
  | sleep (seconds : ℕ)
deriving Repr, DecidableEq

/-- The retry loop `while attempt < max_retries: ...` of `fetch_and_save`,
    from iteration `attempt` on. -/
def retryLoop (succeeds : ℕ → Bool) (max_retries : ℕ) (attempt : ℕ) :
    List SunEffect :=
  if h : attempt < max_retries then
    SunEffect.fetch attempt ::
      (if succeeds attempt then [SunEffect.write attempt]
       else if attempt + 1 < max_retries then
         SunEffect.sleep 15 :: retryLoop succeeds max_retries (attempt + 1)
       else retryLoop succeeds max_retries (attempt + 1))
  else []
termination_by max_retries - attempt

/-- Python `fetch_and_save(latitude, longitude)`: skip entirely when the cache file
    exists; otherwise run the retry loop with `max_retries = 30` starting at
    attempt `0`.  The function always returns normally: its result is this
    (total) effect list. -/
def fetch_and_save (file_exists : Bool) (succeeds : ℕ → Bool) : List SunEffect :=
  if file_exists then []
  else retryLoop succeeds 30 0

/-- Side effects of `fetch_and_save_historical_data`. -/
inductive HistEffect where
  | fetchHistorical
  | mkdir
  | writeMeta
  | writeZip
  | extractZip
deriving Repr, DecidableEq

/-- Python `fetch_and_save_historical_data(token, ba)`: when the directory
    `data/{ba}` exists it only prints; otherwise it fetches the historical
    zip, creates the directory, writes `meta.json` and the zip, and extracts
    it. -/
def fetch_and_save_historical_data (dir_exists : Bool) : List HistEffect :=
  if dir_exists then []
  else [HistEffect.fetchHistorical, HistEffect.mkdir, HistEffect.writeMeta,
        HistEffect.writeZip, HistEffect.extractZip]

/-!
## Derived notions used by the theorem statements
-/

/-- The timestamps (with their readings) that the credit loop actually
    processes: a non-`None` solar reading whose hour has at least one MOER
    reading. -/
def qualifying (nasa_data : NasaData) (moer_data : MoerData) : List (String × ℚ) :=
  nasa_data.filterMap (fun item =>
    match item.2 with
    | none => none
    | some s =>
        if lookup3 moer_data (pyTake item.1 4)
            (pySlice item.1 4 6 ++ "-" ++ pySlice item.1 6 8) (pyLast2 item.1) = []
        then none
        else some (item.1, s))

/-- The hour's mean MOER reading converted from pounds to metric tons:
    `m_h` in the weighted-average specification. -/
def hourMoerTons (moer_data : MoerData) (ts : String) : ℚ :=
  let mv := lookup3 moer_data (pyTake ts 4)
    (pySlice ts 4 6 ++ "-" ++ pySlice ts 6 8) (pyLast2 ts)
  mv.sum / (mv.length : ℚ) / (2204.62 : ℚ)

/-- The effect trace of a run whose first successful attempt is `k`:
    attempts `0..k`, a 15 second sleep after each failure, the write after
    the success. -/
def successTrace (k : ℕ) : List SunEffect :=
  (List.range k).flatMap (fun i => [SunEffect.fetch i, SunEffect.sleep 15]) ++
    [SunEffect.fetch k, SunEffect.write k]

/-- The effect trace of a run in which all 30 attempts fail: attempts
    `0..29`, a 15 second sleep between consecutive attempts, no write, and a
    normal return. -/
def failTrace : List SunEffect :=
  (List.range 29).flatMap (fun i => [SunEffect.fetch i, SunEffect.sleep 15]) ++
    [SunEffect.fetch 29]

/-- The attempt indices of a trace, in order. -/
def attemptsOf (tr : List SunEffect) : List ℕ :=
  tr.filterMap (fun e => match e with | SunEffect.fetch i => some i | _ => none)

/-- Every MOER list stored at a `[year][day][hour]` leaf of the nested
    dictionary is non-empty. -/
def allLeavesNonempty (md : MoerData) : Prop :=
  ∀ y dm, (y, dm) ∈ md → ∀ d hm, (d, hm) ∈ dm → ∀ h l, (h, l) ∈ hm → l ≠ []

/-!
## Theorems
-/

/-- C6: the per-coordinate carbon-credit computation inlined in
    solar_value_map.py is a duplicate of `calculate_carbon_credits` in
    carbon_credits_per_kw.py: on every pair of inputs the two produce the
    same loop totals and the same `total_carbon_credits` (indeed the same
    full result record). -/
theorem solarMapCredit_eq_calculate_carbon_credits
    (solar_history : NasaData) (moer_history : MoerData) :
    solarMapCredit solar_history moer_history =
      calculate_carbon_credits solar_history moer_history := rfl

/-- C4: the caching policy is exactly skip-if-file-exists.  When the NASA
    cache file for a coordinate exists, `fetch_and_save` performs no effect
    at all (no HTTP fetch, no write, no sleep), whatever the fetch outcomes
    would have been; when the directory `data/{ba}` exists,
    `fetch_and_save_historical_data` performs no effect at all.  In
    particular no freshness check, validation or eviction is performed on an
    existing entry. -/
theorem cache_skip_if_exists (succeeds : ℕ → Bool) :
    fetch_and_save true succeeds = [] ∧
      fetch_and_save_historical_data true = [] :=
  ⟨rfl, rfl⟩

lemma get_ba_by_coords_nil (latitude longitude : ℚ) :
    get_ba_by_coords [] latitude longitude = none := rfl

lemma get_ba_by_coords_cons (row : BaRow) (rest : List BaRow)
    (latitude longitude : ℚ) :
    get_ba_by_coords (row :: rest) latitude longitude =
      if row.geometry ⟨longitude, latitude⟩ then some row.ba_abbrev
      else get_ba_by_coords rest latitude longitude := rfl

/-- C3: `get_ba_by_coords` returns `None` exactly when no geometry of the
    GeoDataFrame contains `Point(longitude, latitude)`, and otherwise
    returns the `abbrev` of the first containing row in iteration order. -/
theorem get_ba_by_coords_spec (gdf : List BaRow) (latitude longitude : ℚ) :
    (get_ba_by_coords gdf latitude longitude = none ↔
      ∀ row ∈ gdf, row.geometry ⟨longitude, latitude⟩ = false) ∧
    (∀ i : Fin gdf.length,
      (gdf.get i).geometry ⟨longitude, latitude⟩ = true →
      (∀ j : Fin gdf.length, (j : ℕ) < (i : ℕ) →
        (gdf.get j).geometry ⟨longitude, latitude⟩ = false) →
      get_ba_by_coords gdf latitude longitude = some (gdf.get i).ba_abbrev) := by
  induction gdf with
  | nil =>
      refine ⟨by simp [get_ba_by_coords_nil], ?_⟩
      intro i
      exact absurd i.isLt (by simp)
  | cons row rest ih =>
      constructor
      · rw [get_ba_by_coords_cons]
        by_cases hrow : row.geometry ⟨longitude, latitude⟩
        · simp [hrow]
        · rw [if_neg (by simp [hrow]), ih.1]
          have hrow' : row.geometry ⟨longitude, latitude⟩ = false :=
            Bool.eq_false_iff.mpr hrow
          constructor
          · intro hall r hr
            rcases List.mem_cons.mp hr with h | h
            · exact h ▸ hrow'
            · exact hall r h
          · intro hall r hr
            exact hall r (List.mem_cons_of_mem _ hr)
      · intro i hi hfirst
        match i with
        | ⟨0, h0⟩ =>
            simp only [List.get] at hi ⊢
            rw [get_ba_by_coords_cons, if_pos hi]
        | ⟨n + 1, hn⟩ =>
            have hrow : row.geometry ⟨longitude, latitude⟩ = false := by
              have := hfirst ⟨0, Nat.succ_pos _⟩ (Nat.succ_pos n)
              simpa using this
            have hrest := ih.2 ⟨n, Nat.lt_of_succ_lt_succ hn⟩
              (by simpa using hi)
              (by
                intro j hj
                have := hfirst ⟨(j : ℕ) + 1, Nat.succ_lt_succ j.isLt⟩
                  (Nat.succ_lt_succ hj)
                simpa using this)
            rw [get_ba_by_coords_cons, if_neg (by simp [hrow])]
            simpa using hrest

/-- C3 witness: on a concrete two-row frame whose second row contains the
    point, the lookup returns the second row's abbreviation. -/
theorem get_ba_by_coords_spec_witness :
    get_ba_by_coords
      [⟨"CAISO", fun p => p.x == 1⟩, ⟨"MISO", fun p => p.y == 5⟩] 5 2 =
      some "MISO" :=
  (get_ba_by_coords_spec
      [⟨"CAISO", fun p => p.x == 1⟩, ⟨"MISO", fun p => p.y == 5⟩] 5 2).2
    ⟨1, by decide⟩ (by decide)
    (fun j hj => by
      fin_cases j
      · decide
      · exact absurd hj (by decide))

/-- C9: `calculate_average_sunlight` returns the arithmetic mean of the
    readings that differ from the `-999.0` sentinel (the returned value
    times the number of such readings is their sum, and that number is not
    zero), and returns `0` when there are none; the division is only taken
    with a non-zero denominator. -/
theorem calculate_average_sunlight_spec (data : List (String × ℚ)) :
    ((data.map Prod.snd).filter (fun x => x ≠ -999) = [] →
      calculate_average_sunlight data = 0) ∧
    ((data.map Prod.snd).filter (fun x => x ≠ -999) ≠ [] →
      (((((data.map Prod.snd).filter (fun x => x ≠ -999)).length : ℚ) ≠ 0) ∧
        calculate_average_sunlight data *
            ((((data.map Prod.snd).filter (fun x => x ≠ -999)).length : ℚ)) =
          (((data.map Prod.snd).filter (fun x => x ≠ -999)).sum))) := by
  constructor
  · intro h
    simp only [calculate_average_sunlight]
    rw [if_pos h]
  · intro h
    have hlen : ((((data.map Prod.snd).filter (fun x => x ≠ -999)).length : ℕ) : ℚ) ≠ 0 := by
      have h0 : ((data.map Prod.snd).filter (fun x => x ≠ -999)).length ≠ 0 := by
        simpa [List.length_eq_zero] using h
      exact_mod_cast h0
    refine ⟨hlen, ?_⟩
    simp only [calculate_average_sunlight]
    rw [if_neg h]
    exact div_mul_cancel₀ _ hlen

/-- C9 witness: on a concrete three-day response with one sentinel reading,
    the mean of the two valid readings is returned. -/
theorem calculate_average_sunlight_spec_witness :
    ((([("20220101", (4 : ℚ)), ("20220102", -999), ("20220103", 6)].map
          Prod.snd).filter (fun x => x ≠ -999)).length : ℚ) ≠ 0 ∧
      calculate_average_sunlight
            [("20220101", 4), ("20220102", -999), ("20220103", 6)] *
          ((([("20220101", (4 : ℚ)), ("20220102", -999), ("20220103", 6)].map
              Prod.snd).filter (fun x => x ≠ -999)).length : ℚ) =
        (([("20220101", (4 : ℚ)), ("20220102", -999), ("20220103", 6)].map
            Prod.snd).filter (fun x => x ≠ -999)).sum :=
  (calculate_average_sunlight_spec
      [("20220101", 4), ("20220102", -999), ("20220103", 6)]).2 (by decide)

/-- C10: the two timeslot utilities are mutually consistent:
    `timeslot_to_date t` is the pair of the UTC datetime of
    `GENESIS_TIME + 300 * t` and week number `t / 2016`, and every entry
    `(week_number, week_start_timeslot, week_start_date)` of
    `calc_week_info current_time` (for `current_time` at or after genesis)
    has `week_start_timeslot = 2016 * week_number`, with `timeslot_to_date`
    at that timeslot yielding the same week number and a datetime on the
    date `week_start_date`. -/
theorem timeslot_week_consistency (t current_time : ℕ)
    (h : GENESIS_TIME ≤ current_time) :
    timeslot_to_date t = (GENESIS_TIME + 300 * t, t / 2016) ∧
    ∀ e ∈ calc_week_info current_time,
      e.2.1 = 2016 * e.1 ∧
      (timeslot_to_date e.2.1).2 = e.1 ∧
      dateOfTimestamp (timeslot_to_date e.2.1).1 = e.2.2 := by
  refine ⟨rfl, ?_⟩
  intro e he
  simp only [calc_week_info, List.mem_map] at he
  obtain ⟨w, hw, rfl⟩ := he
  refine ⟨mul_comm w 2016, ?_, ?_⟩
  · show w * TIMESLOTS_PER_WEEK / TIMESLOTS_PER_WEEK = w
    exact Nat.mul_div_cancel w (by decide)
  · show (GENESIS_TIME + TIMESLOT_DURATION * (w * TIMESLOTS_PER_WEEK)) / 86400 =
      (GENESIS_TIME + w * TIMESLOTS_PER_WEEK * TIMESLOT_DURATION) / 86400
    rw [mul_comm]

/-- C10 witness: two weeks and five minutes after genesis, the third entry
    of `calc_week_info` is consistent with `timeslot_to_date`. -/
theorem timeslot_week_consistency_witness :
    ((2 : ℕ), (4032 : ℕ), (19694 : ℕ)).2.1 = 2016 * ((2 : ℕ), (4032 : ℕ), (19694 : ℕ)).1 ∧
    (timeslot_to_date ((2 : ℕ), (4032 : ℕ), (19694 : ℕ)).2.1).2 =
      ((2 : ℕ), (4032 : ℕ), (19694 : ℕ)).1 ∧
    dateOfTimestamp (timeslot_to_date ((2 : ℕ), (4032 : ℕ), (19694 : ℕ)).2.1).1 =
      ((2 : ℕ), (4032 : ℕ), (19694 : ℕ)).2.2 :=
  (timeslot_week_consistency 5 1701561605 (by decide)).2
    (2, 4032, 19694) (by decide)

lemma retryLoop_stop (succeeds : ℕ → Bool) (m a : ℕ) (h : ¬ a < m) :
    retryLoop succeeds m a = [] := by
  rw [retryLoop]
  simp [h]

lemma retryLoop_step (succeeds : ℕ → Bool) (m a : ℕ) (h : a < m) :
    retryLoop succeeds m a =
      SunEffect.fetch a ::
        (if succeeds a then [SunEffect.write a]
         else if a + 1 < m then
           SunEffect.sleep 15 :: retryLoop succeeds m (a + 1)
         else retryLoop succeeds m (a + 1)) := by
  rw [retryLoop]
  simp [h]

lemma attemptsOf_retryLoop_length (succeeds : ℕ → Bool) (m : ℕ) :
    ∀ n a, m - a ≤ n → (attemptsOf (retryLoop succeeds m a)).length ≤ m - a := by
  intro n
  induction n with
  | zero =>
      intro a ha
      have : ¬ a < m := by omega
      simp [retryLoop_stop succeeds m a this, attemptsOf]
  | succ n ih =>
      intro a ha
      by_cases h : a < m
      · rw [retryLoop_step succeeds m a h]
        by_cases hs : succeeds a
        · simp [hs, attemptsOf]
          omega
        · have hrec := ih (a + 1) (by omega)
          by_cases h1 : a + 1 < m
          · simp [hs, h1, attemptsOf] at hrec ⊢
            omega
          · simp [hs, h1, attemptsOf] at hrec ⊢
            omega
      · simp [retryLoop_stop succeeds m a h, attemptsOf]

lemma sleep_mem_retryLoop (succeeds : ℕ → Bool) (m : ℕ) :
    ∀ n a s, m - a ≤ n → SunEffect.sleep s ∈ retryLoop succeeds m a → s = 15 := by
  intro n
  induction n with
  | zero =>
      intro a s ha hmem
      rw [retryLoop_stop succeeds m a (by omega)] at hmem
      cases hmem
  | succ n ih =>
      intro a s ha hmem
      by_cases h : a < m
      · rw [retryLoop_step succeeds m a h] at hmem
        rcases List.mem_cons.mp hmem with h' | h'
        · cases h'
        · by_cases hs : succeeds a
          · rw [if_pos hs] at h'
            rcases List.mem_singleton.mp h' with h''
            cases h''
          · rw [if_neg hs] at h'
            by_cases h1 : a + 1 < m
            · rw [if_pos h1] at h'
              rcases List.mem_cons.mp h' with h'' | h''
              · cases h''
                rfl
              · exact ih (a + 1) s (by omega) h''
            · rw [if_neg h1] at h'
              exact ih (a + 1) s (by omega) h'
      · rw [retryLoop_stop succeeds m a h] at hmem
        cases hmem

lemma retryLoop_first_success (succeeds : ℕ → Bool) (m k : ℕ) :
    ∀ n a, k - a ≤ n → a ≤ k → k < m → succeeds k = true →
      (∀ j, a ≤ j → j < k → succeeds j = false) →
      retryLoop succeeds m a =
        (List.range' a (k - a)).flatMap
            (fun i => [SunEffect.fetch i, SunEffect.sleep 15]) ++
          [SunEffect.fetch k, SunEffect.write k] := by
  intro n
  induction n with
  | zero =>
      intro a hn hak hkm hk _
      have hak' : a = k := by omega
      subst hak'
      rw [retryLoop_step succeeds m a hkm, if_pos hk]
      simp
  | succ n ih =>
      intro a hn hak hkm hk hfirst
      by_cases hak' : a = k
      · subst hak'
        rw [retryLoop_step succeeds m a hkm, if_pos hk]
        simp
      · have halt : a < k := by omega
        have hsa : succeeds a = false := hfirst a le_rfl halt
        rw [retryLoop_step succeeds m a (by omega),
          if_neg (by simp [hsa]), if_pos (by omega)]
        rw [ih (a + 1) (by omega) (by omega) hkm hk
          (fun j hj hjk => hfirst j (by omega) hjk)]
        have hrange : k - a = (k - (a + 1)) + 1 := by omega
        rw [hrange, List.range'_succ]
        simp

lemma retryLoop_all_fail (succeeds : ℕ → Bool) (m : ℕ) :
    ∀ n a, m - a ≤ n → a < m →
      (∀ j, a ≤ j → j < m → succeeds j = false) →
      retryLoop succeeds m a =
        (List.range' a (m - 1 - a)).flatMap
            (fun i => [SunEffect.fetch i, SunEffect.sleep 15]) ++
          [SunEffect.fetch (m - 1)] := by
  intro n
  induction n with
  | zero =>
      intro a hn ham _
      omega
  | succ n ih =>
      intro a hn ham hfail
      by_cases hlast : a = m - 1
      · subst hlast
        rw [retryLoop_step succeeds m (m - 1) ham,
          if_neg (by simp [hfail (m - 1) le_rfl ham]), if_neg (by omega),
          retryLoop_stop succeeds m (m - 1 + 1) (by omega)]
        simp
      · have h1 : a + 1 < m := by omega
        rw [retryLoop_step succeeds m a ham,
          if_neg (by simp [hfail a le_rfl ham]), if_pos h1]
        rw [ih (a + 1) (by omega) h1 (fun j hj hjm => hfail j (by omega) hjm)]
        have hrange : m - 1 - a = (m - 1 - (a + 1)) + 1 := by omega
        rw [hrange, List.range'_succ]
        simp

/-- C5: retries are best-effort with a fixed sleep interval.  On a cache
    miss, `fetch_and_save` performs at most 30 fetch-and-save attempts;
    every sleep in its effect trace is exactly 15 seconds; when the first
    successful attempt is `k < 30` the trace is exactly attempts `0..k`,
    with one 15 second sleep between consecutive attempts, ending in the
    write (so retrying stops at the first success); and when all 30
    attempts fail the trace is exactly attempts `0..29` with one 15 second
    sleep between consecutive attempts and no write, and the function still
    returns (its effect list is total), propagating no exception. -/
theorem fetch_and_save_retry_spec (succeeds : ℕ → Bool) :
    (attemptsOf (fetch_and_save false succeeds)).length ≤ 30 ∧
    (∀ s, SunEffect.sleep s ∈ fetch_and_save false succeeds → s = 15) ∧
    (∀ k, k < 30 → succeeds k = true → (∀ j, j < k → succeeds j = false) →
      fetch_and_save false succeeds = successTrace k) ∧
    ((∀ j, j < 30 → succeeds j = false) →
      fetch_and_save false succeeds = failTrace) := by
  have hdef : fetch_and_save false succeeds = retryLoop succeeds 30 0 := rfl
  refine ⟨?_, ?_, ?_, ?_⟩
  · rw [hdef]
    simpa using attemptsOf_retryLoop_length succeeds 30 30 0 (by omega)
  · intro s hs
    rw [hdef] at hs
    exact sleep_mem_retryLoop succeeds 30 30 0 s (by omega) hs
  · intro k hk hsucc hfirst
    rw [hdef, retryLoop_first_success succeeds 30 k k 0 (by omega) (by omega)
      hk hsucc (fun j _ hjk => hfirst j hjk)]
    rw [successTrace, List.range_eq_range']
    simp
  · intro hfail
    rw [hdef, retryLoop_all_fail succeeds 30 30 0 (by omega) (by omega)
      (fun j _ hjm => hfail j hjm)]
    rw [failTrace, List.range_eq_range']

/-- C5 witness: when the third attempt is the first to succeed the trace is
    attempt 0, a 15 second sleep, attempt 1, a 15 second sleep, attempt 2
    and its write. -/
theorem fetch_and_save_retry_spec_witness :
    fetch_and_save false (fun i => i == 2) = successTrace 2 :=
  (fetch_and_save_retry_spec (fun i => i == 2)).2.2.1 2 (by decide) (by decide)
    (fun j hj => by
      interval_cases j
      · rfl
      · rfl)

lemma qualifying_nil (moer_data : MoerData) : qualifying [] moer_data = [] := rfl

lemma qualifying_cons_none (moer_data : MoerData) (item : String × Option ℚ)
    (rest : NasaData) (hv : item.2 = none) :
    qualifying (item :: rest) moer_data = qualifying rest moer_data := by
  simp [qualifying, List.filterMap_cons, hv]

lemma qualifying_cons_skip (moer_data : MoerData) (item : String × Option ℚ)
    (rest : NasaData) (s : ℚ) (hv : item.2 = some s)
    (hmv : lookup3 moer_data (pyTake item.1 4)
      (pySlice item.1 4 6 ++ "-" ++ pySlice item.1 6 8) (pyLast2 item.1) = []) :
    qualifying (item :: rest) moer_data = qualifying rest moer_data := by
  simp [qualifying, List.filterMap_cons, hv, hmv]

lemma qualifying_cons_keep (moer_data : MoerData) (item : String × Option ℚ)
    (rest : NasaData) (s : ℚ) (hv : item.2 = some s)
    (hmv : ¬ lookup3 moer_data (pyTake item.1 4)
      (pySlice item.1 4 6 ++ "-" ++ pySlice item.1 6 8) (pyLast2 item.1) = []) :
    qualifying (item :: rest) moer_data =
      (item.1, s) :: qualifying rest moer_data := by
  simp [qualifying, List.filterMap_cons, hv, hmv]

lemma creditFold_spec (moer_data : MoerData) :
    ∀ (nasa_data : NasaData) (acc : CreditAcc),
      (nasa_data.foldl (creditStep moer_data) acc).total_moer =
        acc.total_moer +
          ((qualifying nasa_data moer_data).map
            (fun e => hourMoerTons moer_data e.1 * (e.2 / 1000))).sum ∧
      (nasa_data.foldl (creditStep moer_data) acc).total_kwh =
        acc.total_kwh +
          ((qualifying nasa_data moer_data).map (fun e => e.2 / 1000)).sum ∧
      (nasa_data.foldl (creditStep moer_data) acc).total_hours =
        acc.total_hours + (qualifying nasa_data moer_data).length := by
  intro nasa_data
  induction nasa_data with
  | nil => intro acc; simp [qualifying_nil]
  | cons item rest ih =>
      intro acc
      rw [List.foldl_cons]
      cases hv : item.2 with
      | none =>
          have hstep : creditStep moer_data acc item = acc := by
            simp [creditStep, hv]
          rw [hstep, qualifying_cons_none moer_data item rest hv]
          exact ih acc
      | some s =>
          by_cases hmv : lookup3 moer_data (pyTake item.1 4)
              (pySlice item.1 4 6 ++ "-" ++ pySlice item.1 6 8)
              (pyLast2 item.1) = []
          · have hstep : creditStep moer_data acc item = acc := by
              simp [creditStep, hv, hmv]
            rw [hstep, qualifying_cons_skip moer_data item rest s hv hmv]
            exact ih acc
          · have hstep : creditStep moer_data acc item =
                ⟨acc.total_kwh + s / 1000,
                 acc.total_moer + hourMoerTons moer_data item.1 * (s / 1000),
                 acc.total_hours + 1⟩ := by
              simp [creditStep, hv, hmv, hourMoerTons]
            rw [hstep, qualifying_cons_keep moer_data item rest s hv hmv]
            have hrec := ih ⟨acc.total_kwh + s / 1000,
              acc.total_moer + hourMoerTons moer_data item.1 * (s / 1000),
              acc.total_hours + 1⟩
            refine ⟨?_, ?_, ?_⟩
            · rw [hrec.1]
              simp only [List.map_cons, List.sum_cons]
              ring
            · rw [hrec.2.1]
              simp only [List.map_cons, List.sum_cons]
              ring
            · rw [hrec.2.2]
              simp only [List.length_cons]
              omega

/-- C1: `calculate_carbon_credits` computes `average_moer_per_mwh` as the
    irradiance-weighted average over the hourly timestamps that have both a
    non-`None` solar reading and at least one MOER reading:
    `total_moer` is the sum over those hours of `m_h * s_h`, `total_kwh`
    the sum of `s_h` (with `s_h` the irradiance divided by 1000 and `m_h`
    the hour's mean MOER reading divided by 2204.62), and the average is
    their quotient; skipped timestamps contribute nothing to either sum. -/
theorem calculate_carbon_credits_weighted_average
    (nasa_data : NasaData) (moer_data : MoerData) :
    (calculate_carbon_credits nasa_data moer_data).total_moer =
      ((qualifying nasa_data moer_data).map
        (fun e => hourMoerTons moer_data e.1 * (e.2 / 1000))).sum ∧
    (calculate_carbon_credits nasa_data moer_data).total_kwh =
      ((qualifying nasa_data moer_data).map (fun e => e.2 / 1000)).sum ∧
    (calculate_carbon_credits nasa_data moer_data).average_moer_per_mwh =
      ((qualifying nasa_data moer_data).map
          (fun e => hourMoerTons moer_data e.1 * (e.2 / 1000))).sum /
        ((qualifying nasa_data moer_data).map (fun e => e.2 / 1000)).sum := by
  have h := creditFold_spec moer_data nasa_data ⟨0, 0, 0⟩
  have hmoer : (calculate_carbon_credits nasa_data moer_data).total_moer =
      (nasa_data.foldl (creditStep moer_data) ⟨0, 0, 0⟩).total_moer := rfl
  have hkwh : (calculate_carbon_credits nasa_data moer_data).total_kwh =
      (nasa_data.foldl (creditStep moer_data) ⟨0, 0, 0⟩).total_kwh := rfl
  have havg : (calculate_carbon_credits nasa_data moer_data).average_moer_per_mwh =
      (nasa_data.foldl (creditStep moer_data) ⟨0, 0, 0⟩).total_moer /
        (nasa_data.foldl (creditStep moer_data) ⟨0, 0, 0⟩).total_kwh := rfl
  refine ⟨?_, ?_, ?_⟩
  · rw [hmoer, h.1]
    simp
  · rw [hkwh, h.2.1]
    simp
  · rw [havg, h.1, h.2.1]
    simp

lemma mem_qualifying (nasa_data : NasaData) (moer_data : MoerData)
    (e : String × ℚ) (he : e ∈ qualifying nasa_data moer_data) :
    (e.1, some e.2) ∈ nasa_data := by
  obtain ⟨item, hitem, hf⟩ := List.mem_filterMap.mp he
  cases hv : item.2 with
  | none => simp [hv] at hf
  | some s =>
      by_cases hmv : lookup3 moer_data (pyTake item.1 4)
          (pySlice item.1 4 6 ++ "-" ++ pySlice item.1 6 8) (pyLast2 item.1) = []
      · simp [hv, hmv] at hf
      · simp only [hv, hmv, if_neg, if_false, Option.some_inj] at hf
        have : e = (item.1, s) := hf.symm
        subst this
        simpa [← hv] using hitem

/-- C2 counterexample: on a NASA series whose single qualifying hour has
    irradiance `0` (a night hour) and one MOER reading of `100`, the loop
    runs (`total_hours = 1`) but `total_kwh = 0`, so the final division
    `total_moer / total_kwh` is executed with a zero denominator, and in
    Python `calculate_carbon_credits` raises `ZeroDivisionError`. -/
theorem credit_denominator_counterexample :
    (calculate_carbon_credits [("2022010203", some 0)]
        (append3 [] "2022" "01-02" "03" 100)).total_kwh = 0 ∧
    (calculate_carbon_credits [("2022010203", some 0)]
        (append3 [] "2022" "01-02" "03" 100)).total_hours = 1 := by
  constructor
  · show (0 : ℚ) + 0 / 1000 = 0
    norm_num
  · show 0 + 1 = 1
    rfl

/-- C2 amended: the final divisions of `calculate_carbon_credits` have
    non-zero denominators provided the input has at least one qualifying
    timestamp with strictly positive irradiance and no negative irradiance
    reading; under the original claim's unrestricted quantification the
    property fails (see the counterexample). -/
theorem credit_denominators_nonzero (nasa_data : NasaData) (moer_data : MoerData)
    (hnonneg : ∀ item ∈ nasa_data, ∀ s : ℚ, item.2 = some s → 0 ≤ s)
    (hpos : ∃ e ∈ qualifying nasa_data moer_data, 0 < e.2) :
    (calculate_carbon_credits nasa_data moer_data).total_kwh ≠ 0 ∧
    (calculate_carbon_credits nasa_data moer_data).total_hours ≠ 0 := by
  obtain ⟨e, he, hepos⟩ := hpos
  have hsum := (creditFold_spec moer_data nasa_data ⟨0, 0, 0⟩).2.1
  have hhours := (creditFold_spec moer_data nasa_data ⟨0, 0, 0⟩).2.2
  constructor
  · have hkwh : (calculate_carbon_credits nasa_data moer_data).total_kwh =
        ((qualifying nasa_data moer_data).map (fun x => x.2 / 1000)).sum := by
      have : (calculate_carbon_credits nasa_data moer_data).total_kwh =
          (nasa_data.foldl (creditStep moer_data) ⟨0, 0, 0⟩).total_kwh := rfl
      rw [this, hsum]
      simp
    rw [hkwh]
    have hall : ∀ x ∈ (qualifying nasa_data moer_data).map (fun x => x.2 / 1000),
        (0 : ℚ) ≤ x := by
      intro x hx
      obtain ⟨q, hq, rfl⟩ := List.mem_map.mp hx
      have := hnonneg (q.1, some q.2) (mem_qualifying nasa_data moer_data q hq)
        q.2 rfl
      positivity
    have hmem : e.2 / 1000 ∈
        (qualifying nasa_data moer_data).map (fun x => x.2 / 1000) :=
      List.mem_map.mpr ⟨e, he, rfl⟩
    have hle := List.single_le_sum hall _ hmem
    have : (0 : ℚ) < e.2 / 1000 := by positivity
    exact ne_of_gt (lt_of_lt_of_le this hle)
  · have hh : (calculate_carbon_credits nasa_data moer_data).total_hours =
        (qualifying nasa_data moer_data).length := by
      have : (calculate_carbon_credits nasa_data moer_data).total_hours =
          (nasa_data.foldl (creditStep moer_data) ⟨0, 0, 0⟩).total_hours := rfl
      rw [this, hhours]
      simp
    rw [hh]
    have : qualifying nasa_data moer_data ≠ [] :=
      List.ne_nil_of_mem he
    simpa [List.length_eq_zero] using this

/-- C2 amended witness: one daytime hour with irradiance 500 and a MOER
    reading yields non-zero denominators. -/
theorem credit_denominators_nonzero_witness :
    (calculate_carbon_credits [("2022010203", some 500)]
        (append3 [] "2022" "01-02" "03" 100)).total_kwh ≠ 0 ∧
    (calculate_carbon_credits [("2022010203", some 500)]
        (append3 [] "2022" "01-02" "03" 100)).total_hours ≠ 0 :=
  credit_denominators_nonzero [("2022010203", some 500)]
    (append3 [] "2022" "01-02" "03" 100)
    (by
      intro item hitem s hs
      rw [List.mem_singleton] at hitem
      subst hitem
      simp only at hs
      injection hs with h
      rw [← h]
      norm_num)
    ⟨("2022010203", 500), by decide, by norm_num⟩

lemma lookupD_appendHour (hm : HourMap) (h0 h : String) (m : ℚ) :
    lookupD (appendHour hm h0 m) h [] =
      lookupD hm h [] ++ (if h0 = h then [m] else []) := by
  induction hm with
  | nil =>
      by_cases hh : h0 = h
      · simp [appendHour, lookupD, hh]
      · simp [appendHour, lookupD, hh]
  | cons kv rest ih =>
      obtain ⟨k, v⟩ := kv
      by_cases hk0 : k = h0
      · subst hk0
        by_cases hk : k = h
        · subst hk
          simp [appendHour, lookupD]
        · simp [appendHour, lookupD, hk, Ne.symm hk]
      · by_cases hk : k = h
        · subst hk
          simp [appendHour, lookupD, hk0, Ne.symm hk0]
        · simp [appendHour, lookupD, hk0, hk, ih]

lemma lookupD_appendDay (dm : DayMap) (d0 h0 d : String) (m : ℚ) :
    lookupD (appendDay dm d0 h0 m) d [] =
      if d0 = d then appendHour (lookupD dm d []) h0 m
      else lookupD dm d [] := by
  induction dm with
  | nil =>
      by_cases hd : d0 = d
      · simp [appendDay, lookupD, hd]
      · simp [appendDay, lookupD, hd]
  | cons kv rest ih =>
      obtain ⟨k, v⟩ := kv
      by_cases hk0 : k = d0
      · subst hk0
        by_cases hk : k = d
        · subst hk
          simp [appendDay, lookupD]
        · simp [appendDay, lookupD, hk, Ne.symm hk]
      · by_cases hk : k = d
        · subst hk
          simp [appendDay, lookupD, hk0, Ne.symm hk0]
        · simp [appendDay, lookupD, hk0, hk, ih]

lemma lookupD_append3 (md : MoerData) (y0 d0 h0 y : String) (m : ℚ) :
    lookupD (append3 md y0 d0 h0 m) y [] =
      if y0 = y then appendDay (lookupD md y []) d0 h0 m
      else lookupD md y [] := by
  induction md with
  | nil =>
      by_cases hy : y0 = y
      · simp [append3, lookupD, hy]
      · simp [append3, lookupD, hy]
  | cons kv rest ih =>
      obtain ⟨k, v⟩ := kv
      by_cases hk0 : k = y0
      · subst hk0
        by_cases hk : k = y
        · subst hk
          simp [append3, lookupD]
        · simp [append3, lookupD, hk, Ne.symm hk]
      · by_cases hk : k = y
        · subst hk
          simp [append3, lookupD, hk0, Ne.symm hk0]
        · simp [append3, lookupD, hk0, hk, ih]

lemma lookup3_append3 (md : MoerData) (y0 d0 h0 y d h : String) (m : ℚ) :
    lookup3 (append3 md y0 d0 h0 m) y d h =
      lookup3 md y d h ++
        (if y0 = y ∧ d0 = d ∧ h0 = h then [m] else []) := by
  unfold lookup3
  rw [lookupD_append3]
  by_cases hy : y0 = y
  · rw [if_pos hy, lookupD_appendDay]
    by_cases hd : d0 = d
    · rw [if_pos hd, lookupD_appendHour]
      by_cases hh : h0 = h
      · rw [if_pos hh, if_pos ⟨hy, hd, hh⟩]
      · rw [if_neg hh, if_neg (by tauto), List.append_nil]
    · rw [if_neg hd, if_neg (by tauto), List.append_nil]
  · rw [if_neg hy, if_neg (by tauto), List.append_nil]
lemma lookup3_loadRows (y d h : String) :
    ∀ (rows : List (String × ℚ)) (md : MoerData),
      lookup3 (loadRows md rows) y d h =
        lookup3 md y d h ++
          rows.filterMap
            (fun r => if moerKey r.1 = (y, d, h) then some r.2 else none) := by
  intro rows
  induction rows with
  | nil => intro md; simp [loadRows]
  | cons r rest ih =>
      intro md
      obtain ⟨ts, m⟩ := r
      rw [loadRows]
      rw [ih, lookup3_append3]
      have hiff : ((moerKey ts).1 = y ∧ (moerKey ts).2.1 = d ∧ (moerKey ts).2.2 = h) ↔
          moerKey ts = (y, d, h) := by
        rw [Prod.ext_iff, Prod.ext_iff]
      by_cases hkey : moerKey ts = (y, d, h)
      · rw [if_pos (hiff.mpr hkey)]
        simp [List.filterMap_cons, hkey]
      · rw [if_neg (fun hc => hkey (hiff.mp hc))]
        simp [List.filterMap_cons, hkey]

lemma lookup3_foldl_files (p : CsvFile → Bool) (y d h : String) :
    ∀ (folder : List CsvFile) (md : MoerData),
      lookup3
          (folder.foldl
            (fun md f => if p f then loadRows md (f.rows.drop 1) else md) md)
          y d h =
        lookup3 md y d h ++
          ((folder.filter p).flatMap (fun f => f.rows.drop 1)).filterMap
            (fun r => if moerKey r.1 = (y, d, h) then some r.2 else none) := by
  intro folder
  induction folder with
  | nil => intro md; simp
  | cons f rest ih =>
      intro md
      rw [List.foldl_cons]
      by_cases hp : p f
      · rw [if_pos hp, ih, lookup3_loadRows]
        simp [hp]
      · rw [if_neg hp, ih]
        simp [hp]

/-- C7: `load_csv_files` groups the 5-minute MOER readings into hourly
    buckets: the list at key `[year][day][hour]` consists exactly of the
    MOER values, in file order then row order, of the post-header rows of
    the files named `{ba}_2022*.csv` whose timestamp splits (at the first
    `-`, at `T`, and taking the field before the first `:` of the time) to
    that year, day and hour; header rows and rows of non-matching files
    contribute nothing, and no bucket holds a value of a different hour. -/
theorem load_csv_files_buckets (ba : String) (folder : List CsvFile)
    (y d h : String) :
    lookup3 (load_csv_files ba folder) y d h =
      ((folder.filter
            (fun f => f.name.startsWith (ba ++ "_2022") &&
              f.name.endsWith ".csv")).flatMap
          (fun f => f.rows.drop 1)).filterMap
        (fun r => if moerKey r.1 = (y, d, h) then some r.2 else none) := by
  have h0 := lookup3_foldl_files
    (fun f => f.name.startsWith (ba ++ "_2022") && f.name.endsWith ".csv")
    y d h folder []
  rw [show lookup3 ([] : MoerData) y d h = [] from rfl, List.nil_append] at h0
  exact h0

lemma appendHour_leaves (hm : HourMap) (h0 : String) (m : ℚ)
    (hinv : ∀ h l, (h, l) ∈ hm → l ≠ []) :
    ∀ h l, (h, l) ∈ appendHour hm h0 m → l ≠ [] := by
  induction hm with
  | nil =>
      intro h l hmem
      rw [appendHour] at hmem
      rcases List.mem_singleton.mp hmem with hx
      cases hx
      simp
  | cons kv rest ih =>
      obtain ⟨k, v⟩ := kv
      intro h l hmem
      rw [appendHour] at hmem
      by_cases hk : k = h0
      · rw [if_pos hk] at hmem
        rcases List.mem_cons.mp hmem with hx | hx
        · cases hx
          simp
        · exact hinv h l (List.mem_cons_of_mem _ hx)
      · rw [if_neg hk] at hmem
        rcases List.mem_cons.mp hmem with hx | hx
        · cases hx
          exact hinv k v (List.mem_cons_self _ _)
        · exact ih (fun h' l' hm' => hinv h' l' (List.mem_cons_of_mem _ hm')) h l hx

lemma appendDay_leaves (dm : DayMap) (d0 h0 : String) (m : ℚ)
    (hinv : ∀ d hm, (d, hm) ∈ dm → ∀ h l, (h, l) ∈ hm → l ≠ []) :
    ∀ d hm, (d, hm) ∈ appendDay dm d0 h0 m → ∀ h l, (h, l) ∈ hm → l ≠ [] := by
  induction dm with
  | nil =>
      intro d hm hmem
      rw [appendDay] at hmem
      rcases List.mem_singleton.mp hmem with hx
      cases hx
      exact appendHour_leaves [] h0 m (by simp)
  | cons kv rest ih =>
      obtain ⟨k, v⟩ := kv
      intro d hm hmem
      rw [appendDay] at hmem
      by_cases hk : k = d0
      · rw [if_pos hk] at hmem
        rcases List.mem_cons.mp hmem with hx | hx
        · cases hx
          exact appendHour_leaves v h0 m (hinv k v (List.mem_cons_self _ _))
        · exact hinv d hm (List.mem_cons_of_mem _ hx)
      · rw [if_neg hk] at hmem
        rcases List.mem_cons.mp hmem with hx | hx
        · cases hx
          exact hinv k v (List.mem_cons_self _ _)
        · exact ih (fun d' hm' hm'' => hinv d' hm' (List.mem_cons_of_mem _ hm''))
            d hm hx

lemma append3_leaves (md : MoerData) (y0 d0 h0 : String) (m : ℚ)
    (hinv : allLeavesNonempty md) :
    allLeavesNonempty (append3 md y0 d0 h0 m) := by
  induction md with
  | nil =>
      intro y dm hmem
      rw [append3] at hmem
      rcases List.mem_singleton.mp hmem with hx
      cases hx
      exact appendDay_leaves [] d0 h0 m (by simp)
  | cons kv rest ih =>
      obtain ⟨k, v⟩ := kv
      intro y dm hmem
      rw [append3] at hmem
      by_cases hk : k = y0
      · rw [if_pos hk] at hmem
        rcases List.mem_cons.mp hmem with hx | hx
        · cases hx
          exact appendDay_leaves v d0 h0 m (hinv k v (List.mem_cons_self _ _))
        · exact hinv y dm (List.mem_cons_of_mem _ hx)
      · rw [if_neg hk] at hmem
        rcases List.mem_cons.mp hmem with hx | hx
        · cases hx
          exact hinv k v (List.mem_cons_self _ _)
        · exact ih (fun y' dm' hm' => hinv y' dm' (List.mem_cons_of_mem _ hm'))
            y dm hx

lemma loadRows_leaves :
    ∀ (rows : List (String × ℚ)) (md : MoerData),
      allLeavesNonempty md → allLeavesNonempty (loadRows md rows) := by
  intro rows
  induction rows with
  | nil => intro md hinv; exact hinv
  | cons r rest ih =>
      obtain ⟨ts, m⟩ := r
      intro md hinv
      rw [loadRows]
      exact ih _ (append3_leaves md _ _ _ m hinv)

lemma foldl_files_leaves (p : CsvFile → Bool) :
    ∀ (folder : List CsvFile) (md : MoerData),
      allLeavesNonempty md →
      allLeavesNonempty
        (folder.foldl
          (fun md f => if p f then loadRows md (f.rows.drop 1) else md) md) := by
  intro folder
  induction folder with
  | nil => intro md hinv; exact hinv
  | cons f rest ih =>
      intro md hinv
      rw [List.foldl_cons]
      by_cases hp : p f
      · rw [if_pos hp]
        exact ih _ (loadRows_leaves _ md hinv)
      · rw [if_neg hp]
        exact ih _ hinv

/-- C8: every list stored at a `[year][day][hour]` leaf of the dictionaries
    built by `load_csv_files` and by the per-BA loop of
    `load_all_ba_history` is non-empty (a leaf exists only because a MOER
    value was appended to it), and consequently for every hour the credit
    loop averages (a qualifying timestamp) the `moer_values` list has
    non-zero length, so `sum(moer_values) / len(moer_values)` never divides
    by zero: the empty-default case is exactly what the `if not moer_values`
    check filters out. -/
theorem moer_leaf_invariant :
    (∀ (ba : String) (folder : List CsvFile),
      allLeavesNonempty (load_csv_files ba folder)) ∧
    (∀ folder : List CsvFile, allLeavesNonempty (load_ba_folder folder)) ∧
    (∀ (nasa_data : NasaData) (moer_data : MoerData) (e : String × ℚ),
      e ∈ qualifying nasa_data moer_data →
      (lookup3 moer_data (pyTake e.1 4)
          (pySlice e.1 4 6 ++ "-" ++ pySlice e.1 6 8) (pyLast2 e.1)).length ≠ 0) := by
  refine ⟨?_, ?_, ?_⟩
  · intro ba folder
    exact foldl_files_leaves _ folder [] (by intro y dm hmem; cases hmem)
  · intro folder
    exact foldl_files_leaves _ folder [] (by intro y dm hmem; cases hmem)
  · intro nasa_data moer_data e he
    obtain ⟨item, hitem, hf⟩ := List.mem_filterMap.mp he
    cases hv : item.2 with
    | none => simp [hv] at hf
    | some s =>
        by_cases hmv : lookup3 moer_data (pyTake item.1 4)
            (pySlice item.1 4 6 ++ "-" ++ pySlice item.1 6 8) (pyLast2 item.1) = []
        · simp [hv, hmv] at hf
        · simp only [hv, hmv, if_neg, if_false, Option.some_inj] at hf
          have : e = (item.1, s) := hf.symm
          subst this
          simpa [List.length_eq_zero] using hmv

/-- C8 witness: a dictionary holding one reading has a non-empty bucket at
    the qualifying timestamp's key. -/
theorem moer_leaf_invariant_witness :
    (lookup3 (append3 [] "2022" "01-02" "03" 100)
        (pyTake ("2022010203", (500 : ℚ)).1 4)
        (pySlice ("2022010203", (500 : ℚ)).1 4 6 ++ "-" ++
          pySlice ("2022010203", (500 : ℚ)).1 6 8)
        (pyLast2 ("2022010203", (500 : ℚ)).1)).length ≠ 0 :=
  moer_leaf_invariant.2.2 [("2022010203", some 500)]
    (append3 [] "2022" "01-02" "03" 100) ("2022010203", 500) (by decide)

end GcaBackend
